import Mathlib

/-!
Verification of the `claude_code_run.py` wrapper script
(`src/scripts/claude_code_run.py`): a thin command-line passthrough that
builds an argument vector for an external binary and launches it, through a
pseudo-terminal helper when one is available.

The embedding is shallow: the parsed command line becomes the `Args`
structure, the filesystem and the subprocess layer become explicit
parameters (`FileSystem` as total boolean predicates, an `ex` oracle giving
each spawned argument vector an exit code), and the observable behaviour of
an invocation is a `RunResult` holding the exit code, the list of spawned
subprocesses and the lines written to the error stream.
-/

/-- The parsed command line, mirroring the `argparse` destinations of
`main` in `claude_code_run.py` (lines 97-128).  Optional string options are
`Option String` (argparse default `None`); `continue_latest` is the
store-true flag; `claude_bin` always has a value because argparse supplies
the default; `extra` is the `REMAINDER` capture. -/
structure Args where
  prompt : Option String
  permission_mode : Option String
  allowedTools : Option String
  output_format : Option String
  json_schema : Option String
  append_system_prompt : Option String
  system_prompt : Option String
  continue_latest : Bool
  resume : Option String
  claude_bin : String
  cwd : Option String
  extra : List String
deriving Repr, DecidableEq

/-- Python truthiness of an optional string: `None` and `""` are falsy,
every other string is truthy.  Used for the `if args.x:` guards in
`build_cmd`. -/
def truthyStr : Option String → Bool
  | none => false
  | some s => s != ""

/-- Function `build_cmd` (lines 26-65): builds the argument vector for the external
binary from the parsed options, one `if` per option, in source order. -/
def build_cmd (a : Args) : List String :=
  let cmd : List String := [a.claude_bin]
  let cmd := if truthyStr a.permission_mode then
    cmd ++ ["--permission-mode", a.permission_mode.getD ""] else cmd
  let cmd := if a.prompt.isSome then
    cmd ++ ["-p", a.prompt.getD ""] else cmd
  let cmd := if truthyStr a.allowedTools then
    cmd ++ ["--allowedTools", a.allowedTools.getD ""] else cmd
  let cmd := if truthyStr a.output_format then
    cmd ++ ["--output-format", a.output_format.getD ""] else cmd
  let cmd := if truthyStr a.json_schema then
    cmd ++ ["--json-schema", a.json_schema.getD ""] else cmd
  let cmd := if truthyStr a.append_system_prompt then
    cmd ++ ["--append-system-prompt", a.append_system_prompt.getD ""] else cmd
  let cmd := if truthyStr a.system_prompt then
    cmd ++ ["--system-prompt", a.system_prompt.getD ""] else cmd
  let cmd := if a.continue_latest then cmd ++ ["--continue"] else cmd
  let cmd := if truthyStr a.resume then
    cmd ++ ["--resume", a.resume.getD ""] else cmd
  let cmd := if a.extra.isEmpty then cmd else cmd ++ a.extra
  cmd

/-- The tokens the permission-mode option contributes to the vector. -/
def seg_permission_mode (a : Args) : List String :=
  if truthyStr a.permission_mode then
    ["--permission-mode", a.permission_mode.getD ""] else []

/-- The tokens the prompt option contributes (guard is `is not None`). -/
def seg_prompt (a : Args) : List String :=
  if a.prompt.isSome then ["-p", a.prompt.getD ""] else []

/-- The tokens the allowedTools option contributes. -/
def seg_allowedTools (a : Args) : List String :=
  if truthyStr a.allowedTools then ["--allowedTools", a.allowedTools.getD ""] else []

/-- The tokens the output-format option contributes. -/
def seg_output_format (a : Args) : List String :=
  if truthyStr a.output_format then ["--output-format", a.output_format.getD ""] else []

/-- The tokens the json-schema option contributes. -/
def seg_json_schema (a : Args) : List String :=
  if truthyStr a.json_schema then ["--json-schema", a.json_schema.getD ""] else []

/-- The tokens the append-system-prompt option contributes. -/
def seg_append_system_prompt (a : Args) : List String :=
  if truthyStr a.append_system_prompt then
    ["--append-system-prompt", a.append_system_prompt.getD ""] else []

/-- The tokens the system-prompt option contributes. -/
def seg_system_prompt (a : Args) : List String :=
  if truthyStr a.system_prompt then ["--system-prompt", a.system_prompt.getD ""] else []

/-- The token the continuation flag contributes (a single token, no value). -/
def seg_continue (a : Args) : List String :=
  if a.continue_latest then ["--continue"] else []

/-- The tokens the resume option contributes. -/
def seg_resume (a : Args) : List String :=
  if truthyStr a.resume then ["--resume", a.resume.getD ""] else []

/-- The hardcoded fallback path in `DEFAULT_CLAUDE` (line 23). -/
def default_claude_path : String := "/home/ubuntu/.local/bin/claude"

/-- Constant `DEFAULT_CLAUDE` (line 23): the `CLAUDE_CODE_BIN` environment variable
when it is set (`os.environ.get` returns it even when empty), else the
hardcoded path.  The environment is passed explicitly: `none` means the
variable is unset. -/
def DEFAULT_CLAUDE (env_claude_code_bin : Option String) : String :=
  env_claude_code_bin.getD default_claude_path

/-- Resolution of the target binary path (argparse default on lines
118-122): the explicit `--claude-bin` value when the option was given, else
`DEFAULT_CLAUDE`. -/
def resolve_claude_bin (claude_bin_opt : Option String)
    (env_claude_code_bin : Option String) : String :=
  claude_bin_opt.getD (DEFAULT_CLAUDE env_claude_code_bin)

/-- The leading-separator strip in `main` (lines 131-134): drop a single
leading `--` token from the passthrough remainder. -/
def stripExtra (extra : List String) : List String :=
  match extra with
  | "--" :: rest => rest
  | _ => extra

/-- The filesystem, as total boolean predicates on path strings:
`path_exists` models `Path.exists`, `is_file` models `Path.is_file`, and
`x_ok` models `os.access(path, os.X_OK)`. -/
structure FileSystem where
  path_exists : String → Bool
  is_file : String → Bool
  x_ok : String → Bool

/-- The join `Path(p) / name` for a directory string `p` taken from a split `PATH`:
joining with an empty left component yields the bare name. -/
def candPath (p name : String) : String :=
  if p = "" then name else p ++ "/" ++ name

/-- The loop of `shutil_which` (lines 87-94) over the already-split list of
`PATH` directories: return the first candidate that is a regular file and
executable, else keep scanning. -/
def which_go (fs : FileSystem) (name : String) : List String → Option String
  | [] => none
  | p :: rest =>
    let cand := candPath p name
    if fs.is_file cand && fs.x_ok cand then some cand
    else which_go fs name rest

/-- Function `shutil_which` (lines 84-94): split `os.environ.get("PATH", "")` on
colons and scan the directories in order.  (The source wraps the check in
`try/except OSError`; with the filesystem as total predicates no exception
arises.) -/
def shutil_which (fs : FileSystem) (path_env : Option String)
    (name : String) : Option String :=
  which_go fs name ((path_env.getD "").splitOn ":")

/-- The character class of `shlex.quote`: characters that need no quoting
(ASCII `\w` plus at-sign, percent, plus, equals, colon, comma, dot, slash
and hyphen). -/
def shlexSafeChar (c : Char) : Bool :=
  c.isAlphanum || c = '_' || c = '@' || c = '%' || c = '+' || c = '=' ||
    c = ':' || c = ',' || c = '.' || c = '/' || c = '-'

/-- Python `shlex.quote`: the empty string becomes a pair of single quotes; a
string of safe characters is returned as is; otherwise the string is
wrapped in single quotes with each inner single quote replaced by the
sequence quote, double quote, quote, double quote, quote. -/
def shlex_quote (s : String) : String :=
  if s = "" then "\x27\x27"
  else if s.toList.all shlexSafeChar then s
  else "\x27" ++ (s.replace "\x27" "\x27\x22\x27\x22\x27") ++ "\x27"

/-- One child-process creation: the argument vector handed to
`subprocess.run` and the working directory. -/
structure Spawn where
  argv : List String
  cwd : Option String
deriving Repr, DecidableEq

/-- The observable outcome of a run: the returned exit code, the child
processes spawned (in order), and the lines printed to standard error. -/
structure RunResult where
  code : Int
  spawned : List Spawn
  errs : List String
deriving Repr, DecidableEq

/-- Function `run_with_pty` (lines 68-81): shell-quote and space-join the vector,
look for the `script` helper on `PATH`; without it run the vector directly,
with it run `script -q -c <cmd_str> /dev/null`; either way the result is
the child's `returncode`.  `ex` is the subprocess oracle assigning an exit
code to each spawned vector. -/
def run_with_pty (fs : FileSystem) (path_env : Option String)
    (ex : List String → Option String → Int)
    (cmd : List String) (cwd : Option String) : RunResult :=
  let cmd_str := String.intercalate " " (cmd.map shlex_quote)
  let script_bin := shutil_which fs path_env "script"
  if truthyStr script_bin then
    let full := [script_bin.getD "", "-q", "-c", cmd_str, "/dev/null"]
    { code := ex full cwd, spawned := [⟨full, cwd⟩], errs := [] }
  else
    { code := ex cmd cwd, spawned := [⟨cmd, cwd⟩], errs := [] }

/-- Function `main` after argument parsing (lines 130-142): strip a single leading
`--` from the remainder, fail with code 2 and two stderr lines when the
resolved binary path does not exist, otherwise build the vector and launch
it through `run_with_pty`. -/
def main_run (fs : FileSystem) (path_env : Option String)
    (ex : List String → Option String → Int) (args : Args) : RunResult :=
  let args := { args with extra := stripExtra args.extra }
  if fs.path_exists args.claude_bin then
    run_with_pty fs path_env ex (build_cmd args) args.cwd
  else
    { code := 2, spawned := [],
      errs := ["claude binary not found: " ++ args.claude_bin,
               "Tip: set CLAUDE_CODE_BIN=/path/to/claude"] }

/-- The first value of the list that is present (spec wording for the
binary-path resolution chain). -/
def first_present : List (Option String) → Option String
  | [] => none
  | some x :: _ => some x
  | none :: rest => first_present rest

/-- Sample parsed command line with every option omitted. -/
def argsNone : Args :=
  ⟨none, none, none, none, none, none, none, false, none, "/bin/claude",
    none, []⟩

/-- Sample filesystem on which every path exists as an executable file. -/
def fsAll : FileSystem := ⟨fun _ => true, fun _ => true, fun _ => true⟩

/-- Sample filesystem with no entries at all. -/
def fsNone : FileSystem := ⟨fun _ => false, fun _ => false, fun _ => false⟩

/-- Sample filesystem on which every path exists but nothing is a regular
file or executable, so no `script` helper can be found. -/
def fsNoFiles : FileSystem := ⟨fun _ => true, fun _ => false, fun _ => false⟩

/-- Sample subprocess oracle on which every child exits with the given
code. -/
def exConst (k : Int) : List String → Option String → Int := fun _ _ => k

theorem if_append (b : Bool) (c t : List String) :
    (if b then c ++ t else c) = c ++ if b then t else [] := by
  cases b <;> simp

/-- Lemma: `build_cmd` decomposes as the binary path followed by each option's
segment in the fixed source order, then the passthrough arguments. -/
theorem build_cmd_decomp (a : Args) :
    build_cmd a =
      [a.claude_bin] ++ seg_permission_mode a ++ seg_prompt a
        ++ seg_allowedTools a ++ seg_output_format a ++ seg_json_schema a
        ++ seg_append_system_prompt a ++ seg_system_prompt a
        ++ seg_continue a ++ seg_resume a ++ a.extra := by
  simp only [build_cmd, seg_permission_mode, seg_prompt, seg_allowedTools,
    seg_output_format, seg_json_schema, seg_append_system_prompt,
    seg_system_prompt, seg_continue, seg_resume, if_append]
  cases a.extra <;> simp [List.append_assoc]

/-- C3: `build_cmd` produces the binary path first, then for each option
that is set its flag token immediately followed by its value, in the fixed
order permission-mode, prompt, allowedTools, output-format, json-schema,
append-system-prompt, system-prompt, continue (single token, no value),
resume, then all passthrough arguments verbatim in original order.  Each
`seg_` function is the option's contribution: `[flag, value]` when set,
`[]` otherwise, and `seg_continue` is `["--continue"]` with no value. -/
theorem build_cmd_fixed_order (a : Args) :
    build_cmd a =
      [a.claude_bin] ++ seg_permission_mode a ++ seg_prompt a
        ++ seg_allowedTools a ++ seg_output_format a ++ seg_json_schema a
        ++ seg_append_system_prompt a ++ seg_system_prompt a
        ++ seg_continue a ++ seg_resume a ++ a.extra :=
  build_cmd_decomp a

/-- C4: an omitted option contributes no tokens at all to the argument
vector: its segment is empty, and with every option omitted `build_cmd`
yields exactly the binary path followed by the passthrough arguments. -/
theorem omitted_options_contribute_nothing (a : Args) :
    seg_permission_mode { a with permission_mode := none } = []
    ∧ seg_prompt { a with prompt := none } = []
    ∧ seg_allowedTools { a with allowedTools := none } = []
    ∧ seg_output_format { a with output_format := none } = []
    ∧ seg_json_schema { a with json_schema := none } = []
    ∧ seg_append_system_prompt { a with append_system_prompt := none } = []
    ∧ seg_system_prompt { a with system_prompt := none } = []
    ∧ seg_continue { a with continue_latest := false } = []
    ∧ seg_resume { a with resume := none } = []
    ∧ build_cmd { a with
        permission_mode := none, prompt := none, allowedTools := none,
        output_format := none, json_schema := none,
        append_system_prompt := none, system_prompt := none,
        continue_latest := false, resume := none } =
      a.claude_bin :: a.extra := by
  refine ⟨rfl, rfl, rfl, rfl, rfl, rfl, rfl, rfl, rfl, ?_⟩
  rw [build_cmd_decomp]
  simp [seg_permission_mode, seg_prompt, seg_allowedTools,
    seg_output_format, seg_json_schema, seg_append_system_prompt,
    seg_system_prompt, seg_continue, seg_resume, truthyStr]

/-- C5: a single leading `--` token in the passthrough remainder is
removed and everything after it is preserved in order and count; a list
not starting with `--` is unchanged; at most one leading `--` is removed
(a second `--` stays). -/
theorem strip_leading_separator (extra : List String) :
    stripExtra extra =
      (if extra.head? = some "--" then extra.tail else extra)
    ∧ stripExtra ("--" :: extra) = extra
    ∧ stripExtra ("--" :: "--" :: extra) = "--" :: extra := by
  refine ⟨?_, rfl, rfl⟩
  match extra with
  | [] => rfl
  | h :: t =>
    by_cases hh : h = "--"
    · subst hh; simp [stripExtra]
    · simp only [List.head?_cons, List.tail_cons]
      rw [if_neg (by simpa using hh)]
      unfold stripExtra
      split
      · next heq => exact absurd (List.cons.injEq .. ▸ congrArg id heq) (by simp [hh])
      · rfl

/-- C6: the binary path resolves to the first present value among the
explicit `--claude-bin` option, the `CLAUDE_CODE_BIN` environment
variable, and the fixed default `/home/ubuntu/.local/bin/claude`. -/
theorem claude_bin_resolution_order (opt env : Option String) :
    some (resolve_claude_bin opt env) =
      first_present [opt, env, some default_claude_path] := by
  cases opt <;> cases env <;> rfl

theorem which_go_eq_find (fs : FileSystem) (name : String)
    (dirs : List String) :
    which_go fs name dirs =
      (dirs.find? (fun p =>
        fs.is_file (candPath p name) && fs.x_ok (candPath p name))).map
        (fun p => candPath p name) := by
  induction dirs with
  | nil => rfl
  | cons p rest ih =>
    cases h : fs.is_file (candPath p name) && fs.x_ok (candPath p name) with
    | true => simp [which_go, List.find?_cons_of_pos, h]
    | false => simp [which_go, List.find?_cons_of_neg, h, ih]

/-- C7: `shutil_which` scans the colon-separated `PATH` directories in
order and returns the first candidate that is a regular file and
executable by the current user (`none` when no directory has one, since
`find?` is `none` exactly then). -/
theorem shutil_which_first_executable (fs : FileSystem)
    (path_env : Option String) (name : String) :
    shutil_which fs path_env name =
      (((path_env.getD "").splitOn ":").find? (fun p =>
        fs.is_file (candPath p name) && fs.x_ok (candPath p name))).map
        (fun p => candPath p name) :=
  which_go_eq_find fs name _

/-- C8: when the `script` helper is absent from every search-path
directory, `run_with_pty` runs the argument vector directly, reports
nothing to the error stream, and its result is that child's exit code. -/
theorem no_helper_direct_exec (fs : FileSystem) (path_env : Option String)
    (ex : List String → Option String → Int) (cmd : List String)
    (cwd : Option String)
    (h : shutil_which fs path_env "script" = none) :
    run_with_pty fs path_env ex cmd cwd =
      ⟨ex cmd cwd, [⟨cmd, cwd⟩], []⟩ := by
  simp [run_with_pty, h, truthyStr]

theorem which_go_fsNoFiles (name : String) (dirs : List String) :
    which_go fsNoFiles name dirs = none := by
  induction dirs with
  | nil => rfl
  | cons p rest ih =>
    have hf : fsNoFiles.is_file (candPath p name) = false := rfl
    simpa [which_go, hf] using ih

theorem shutil_which_fsNoFiles (path_env : Option String) (name : String) :
    shutil_which fsNoFiles path_env name = none :=
  which_go_fsNoFiles name _

theorem no_helper_direct_exec_witness :
    shutil_which fsNoFiles (some "/usr/bin:/bin") "script" = none
    ∧ run_with_pty fsNoFiles (some "/usr/bin:/bin") (exConst 5)
        ["/bin/claude", "-p", "hi"] none =
      ⟨5, [⟨["/bin/claude", "-p", "hi"], none⟩], []⟩ :=
  ⟨shutil_which_fsNoFiles (some "/usr/bin:/bin") "script",
    no_helper_direct_exec fsNoFiles (some "/usr/bin:/bin") (exConst 5)
      ["/bin/claude", "-p", "hi"] none
      (shutil_which_fsNoFiles (some "/usr/bin:/bin") "script")⟩

theorem run_with_pty_spawn (fs : FileSystem) (path_env : Option String)
    (ex : List String → Option String → Int) (cmd : List String)
    (cwd : Option String) :
    ∃ s : Spawn, run_with_pty fs path_env ex cmd cwd =
      ⟨ex s.argv s.cwd, [s], []⟩ := by
  unfold run_with_pty
  by_cases hb : truthyStr (shutil_which fs path_env "script") = true
  · exact ⟨⟨[(shutil_which fs path_env "script").getD "", "-q", "-c",
      String.intercalate " " (cmd.map shlex_quote), "/dev/null"], cwd⟩,
      by simp [hb]⟩
  · exact ⟨⟨cmd, cwd⟩, by simp [hb]⟩

/-- C1: whenever the resolved binary path exists, the program spawns
exactly one child process and its own exit code is that child's exit code
unchanged, in both the helper (pty) path and the direct path. -/
theorem exit_code_propagated (fs : FileSystem) (path_env : Option String)
    (ex : List String → Option String → Int) (a : Args)
    (h : fs.path_exists a.claude_bin = true) :
    ∃ s : Spawn, (main_run fs path_env ex a).spawned = [s]
      ∧ (main_run fs path_env ex a).code = ex s.argv s.cwd := by
  obtain ⟨s, hs⟩ := run_with_pty_spawn fs path_env ex
    (build_cmd { a with extra := stripExtra a.extra }) a.cwd
  exact ⟨s, by simp [main_run, h, hs], by simp [main_run, h, hs]⟩

theorem exit_code_propagated_witness :
    fsAll.path_exists argsNone.claude_bin = true
    ∧ ∃ s : Spawn,
        (main_run fsAll (some "/usr/bin") (exConst 3) argsNone).spawned = [s]
        ∧ (main_run fsAll (some "/usr/bin") (exConst 3) argsNone).code =
            exConst 3 s.argv s.cwd :=
  ⟨rfl, exit_code_propagated fsAll (some "/usr/bin") (exConst 3) argsNone rfl⟩

/-- C2: whenever the resolved binary path does not exist, the program
writes a diagnostic naming the missing path and a hint about the
`CLAUDE_CODE_BIN` override to the error stream, returns exit code 2, and
spawns no subprocess. -/
theorem missing_binary_fails_fast (fs : FileSystem)
    (path_env : Option String) (ex : List String → Option String → Int)
    (a : Args) (h : fs.path_exists a.claude_bin = false) :
    main_run fs path_env ex a =
      ⟨2, [], ["claude binary not found: " ++ a.claude_bin,
               "Tip: set CLAUDE_CODE_BIN=/path/to/claude"]⟩ := by
  simp [main_run, h]

theorem missing_binary_fails_fast_witness :
    fsNone.path_exists argsNone.claude_bin = false
    ∧ main_run fsNone (some "/usr/bin") (exConst 0) argsNone =
      ⟨2, [], ["claude binary not found: /bin/claude",
               "Tip: set CLAUDE_CODE_BIN=/path/to/claude"]⟩ :=
  ⟨rfl, missing_binary_fails_fast fsNone (some "/usr/bin") (exConst 0)
    argsNone rfl⟩

/-- C9: when both the continuation flag and a (nonempty) resume
identifier are set, the produced vector contains the `--continue` token
immediately followed by `--resume` and the identifier; no
mutual-exclusivity validation removes either. -/
theorem continue_and_resume_both_emitted (a : Args) (r : String)
    (hc : a.continue_latest = true) (hr : a.resume = some r)
    (hne : r ≠ "") :
    List.IsInfix ["--continue", "--resume", r] (build_cmd a) := by
  refine ⟨[a.claude_bin] ++ seg_permission_mode a ++ seg_prompt a
    ++ seg_allowedTools a ++ seg_output_format a ++ seg_json_schema a
    ++ seg_append_system_prompt a ++ seg_system_prompt a, a.extra, ?_⟩
  rw [build_cmd_decomp]
  simp [seg_continue, seg_resume, hc, hr, truthyStr, bne_iff_ne, hne,
    List.append_assoc]

/-- Sample parsed command line requesting both continuation and resume. -/
def argsCR : Args :=
  { argsNone with continue_latest := true, resume := some "sid" }

theorem continue_and_resume_both_emitted_witness :
    argsCR.continue_latest = true ∧ argsCR.resume = some "sid"
    ∧ "sid" ≠ ""
    ∧ List.IsInfix ["--continue", "--resume", "sid"] (build_cmd argsCR) :=
  ⟨rfl, rfl, by decide,
    continue_and_resume_both_emitted argsCR "sid" rfl rfl (by decide)⟩

/-- C10: the empty string is handled asymmetrically: a prompt set to the
empty string still emits `-p` followed by the empty string (the source
checks `is not None`), whereas an empty-string value for allowedTools,
output-format, json-schema, append-system-prompt, system-prompt or resume
is treated as unset and contributes no tokens (truthiness checks). -/
theorem empty_string_option_asymmetry (a : Args) :
    List.IsInfix ["-p", ""] (build_cmd { a with prompt := some "" })
    ∧ seg_allowedTools { a with allowedTools := some "" } = []
    ∧ seg_output_format { a with output_format := some "" } = []
    ∧ seg_json_schema { a with json_schema := some "" } = []
    ∧ seg_append_system_prompt { a with append_system_prompt := some "" } = []
    ∧ seg_system_prompt { a with system_prompt := some "" } = []
    ∧ seg_resume { a with resume := some "" } = [] := by
  refine ⟨⟨[a.claude_bin] ++ seg_permission_mode { a with prompt := some "" },
    seg_allowedTools { a with prompt := some "" }
      ++ seg_output_format { a with prompt := some "" }
      ++ seg_json_schema { a with prompt := some "" }
      ++ seg_append_system_prompt { a with prompt := some "" }
      ++ seg_system_prompt { a with prompt := some "" }
      ++ seg_continue { a with prompt := some "" }
      ++ seg_resume { a with prompt := some "" } ++ a.extra, ?_⟩,
    rfl, rfl, rfl, rfl, rfl, rfl⟩
  rw [build_cmd_decomp]
  simp [seg_prompt, List.append_assoc]
